import Mathlib

/-!
Verification of the Windows semaphore implementation in
src/src/thread/windows/SDL_syssem.c: the WaitOnAddress-based fast path
(functions suffixed `_atom`), the kernel-semaphore fallback (functions
suffixed `_kern`), and the runtime selection of the implementation table.

The C functions are embedded shallowly. Interactions with the outside
world (allocation success, kernel call outcomes, the clock, the value of
the shared counter as seen by each read, and whether an interlocked
compare-and-swap finds the counter unchanged) are passed in as explicit
parameters or as environment streams, and the loops take a fuel
parameter, returning `none` when it runs out.
-/

namespace SDLSem

/-- Return code of a timed-out wait, the value of SDL_MUTEX_TIMEDOUT. -/
def SDL_MUTEX_TIMEDOUT : Int := 1

/-- Return value of SDL_SetError, reported for generic OS failures. -/
def errSetError : Int := -1

/-- Return value of SDL_InvalidParamError (itself an SDL_SetError call). -/
def errInvalidParam : Int := -1

/-- SDL_NS_TO_MS: nanoseconds to milliseconds by truncating division
(SDL_NS_PER_MS = 1000000). -/
def nsToMs (ns : Nat) : Nat := ns / 1000000

/-- The Win32 DWORD value INFINITE (0xFFFFFFFF). -/
def INFINITE : Nat := 4294967295

/-- Reinterpretation of a 32-bit unsigned value as a signed 32-bit LONG, as
happens in the assignment sem->count = initial_value. -/
def asSigned32 (v : Nat) : Int :=
  if v < 2147483648 then (v : Int) else (v : Int) - 4294967296

/-- Cast of the LONG count back to a 32-bit unsigned value, as in
return (Uint32)sem->count. -/
def asUint32 (c : Int) : Nat := (c % 4294967296).toNat

/-! ## Fast path: atomics + WaitOnAddress (`_atom` functions) -/

/-- SDL_sem_atom: the fast-path semaphore holds only the LONG count. -/
structure SDL_sem_atom where
  count : Int
deriving DecidableEq

/-- SDL_CreateSemaphore_atom: SDL_malloc, then sem->count = initial_value; on
allocation failure SDL_OutOfMemory is reported and NULL is returned. -/
def SDL_CreateSemaphore_atom (mallocOk : Bool) (initial_value : Nat) :
    Option SDL_sem_atom :=
  if mallocOk then some ⟨asSigned32 initial_value⟩ else none

/-- SDL_GetSemaphoreValue_atom: on a NULL handle, records
SDL_InvalidParamError and returns 0; otherwise returns (Uint32)sem->count.
The Bool component records whether the invalid-parameter error was set. -/
def SDL_GetSemaphoreValue_atom : Option SDL_sem_atom → Nat × Bool
  | none => (0, true)
  | some sem => (asUint32 sem.count, false)

/-- Calls made by SDL_PostSemaphore_atom, in program order. -/
inductive AtomPostEv
  | interlockedIncrement
  | wakeByAddressSingle
deriving DecidableEq

/-- SDL_PostSemaphore_atom: NULL handle gives SDL_InvalidParamError;
otherwise InterlockedIncrement(&sem->count) followed by
pWakeByAddressSingle(&sem->count), returning 0. The event list records the
two calls in program order. -/
def SDL_PostSemaphore_atom :
    Option SDL_sem_atom → Int × Option SDL_sem_atom × List AtomPostEv
  | none => (errInvalidParam, none, [])
  | some sem =>
      (0, some ⟨sem.count + 1⟩,
        [AtomPostEv.interlockedIncrement, AtomPostEv.wakeByAddressSingle])

/-! ### Linearized action semantics of the fast-path counter

Every mutation of the fast-path counter in the source is one of two
interlocked operations on the 32-bit LONG sem->count: the
InterlockedIncrement in SDL_PostSemaphore_atom, and the
InterlockedCompareExchange(&sem->count, count - 1, count) in
SDL_WaitSemaphoreTimeoutNS_atom, which every wait path attempts only
after having read a nonzero value `count`, and which takes effect only
when the counter still equals that read value. Both operate in 32-bit
two's-complement arithmetic: incrementing LONG_MAX = 2147483647 wraps to
-2147483648. -/

/-- Two's-complement wraparound of an integer to the signed 32-bit LONG
range [-2147483648, 2147483648). -/
def wrap32 (x : Int) : Int := (x + 2147483648) % 4294967296 - 2147483648

/-- One atomic action on the fast-path counter. `post` is the
InterlockedIncrement of SDL_PostSemaphore_atom; `casDec observed` is the
InterlockedCompareExchange(&sem->count, observed - 1, observed) of the
wait paths, reached only with `observed` nonzero. -/
inductive SemEvent
  | post
  | casDec (observed : Int)
deriving DecidableEq

/-- Effect of one atomic action on the LONG counter, in the 32-bit
wrapping arithmetic the interlocked operations use. A casDec takes effect
only if its observed value was nonzero (the code guard) and the counter
still holds that value (the compare-and-swap succeeds); otherwise the
counter is left unchanged. -/
def atomStep (c : Int) : SemEvent → Int
  | SemEvent.post => wrap32 (c + 1)
  | SemEvent.casDec obs => if obs ≠ 0 ∧ c = obs then wrap32 (obs - 1) else c

/-- Counter value after a linearized history of interlocked operations. -/
def atomRun (c : Int) (evs : List SemEvent) : Int := evs.foldl atomStep c

/-- Side condition under which the 32-bit increment cannot overflow: every
post in the history is applied to a counter strictly below
LONG_MAX = 2147483647. -/
def postOk (c : Int) : SemEvent → Bool
  | SemEvent.post => decide (c < 2147483647)
  | SemEvent.casDec _ => true

/-- A history of interlocked operations never increments the counter at
LONG_MAX, evaluated stepwise along the run. -/
def noOverflow (c : Int) : List SemEvent → Bool
  | [] => true
  | e :: rest => postOk c e && noOverflow (atomStep c e) rest

/-- Values already inside the signed 32-bit range are fixed by wrap32. -/
lemma wrap32_eq_self (x : Int) (h1 : -2147483648 ≤ x) (h2 : x < 2147483648) :
    wrap32 x = x := by
  unfold wrap32
  omega

/-- Incrementing after a wraparound is the wraparound of the increment. -/
lemma wrap32_add_one (c : Int) : wrap32 (wrap32 c + 1) = wrap32 (c + 1) := by
  unfold wrap32
  omega

/-- Closed form of a run consisting only of posts: n increments starting
from the representative of c end at the representative of c + n. -/
lemma atomRun_replicate_post (n : Nat) (c : Int) :
    atomRun (wrap32 c) (List.replicate n SemEvent.post) = wrap32 (c + n) := by
  induction n generalizing c with
  | zero =>
    simp [atomRun]
  | succ m ih =>
    have hrep : List.replicate (m + 1) SemEvent.post =
        SemEvent.post :: List.replicate m SemEvent.post := rfl
    have hstep : atomStep (wrap32 c) SemEvent.post = wrap32 (c + 1) := by
      simp only [atomStep]
      exact wrap32_add_one c
    have hcons : atomRun (wrap32 c) (SemEvent.post :: List.replicate m SemEvent.post) =
        atomRun (wrap32 (c + 1)) (List.replicate m SemEvent.post) := by
      simp only [atomRun, List.foldl_cons, hstep]
    rw [hrep, hcons, ih (c + 1)]
    congr 1
    push_cast
    ring

/-- C1, counterexample: with the LONG's 32-bit wraparound modelled, the
claimed invariant fails on the concrete history of 2^31 posts from the
initial count 0: InterlockedIncrement wraps LONG_MAX to -2147483648, so
the counter is observed negative, refuting
(for all non-negative starts, all histories leave the counter
non-negative) as stated. -/
theorem c1_wrap_counterexample :
    atomRun 0 (List.replicate 2147483648 SemEvent.post) = -2147483648 ∧
      ¬ (∀ (c0 : Int), 0 ≤ c0 → ∀ evs : List SemEvent, 0 ≤ atomRun c0 evs) := by
  have e1 : atomRun 0 (List.replicate 2147483648 SemEvent.post) = -2147483648 := by
    have h := atomRun_replicate_post 2147483648 0
    rw [(by decide : wrap32 (0 : Int) = 0)] at h
    rw [h]
    norm_num [wrap32]
  refine ⟨e1, fun hclaim => ?_⟩
  have h3 := hclaim 0 le_rfl (List.replicate 2147483648 SemEvent.post)
  rw [e1] at h3
  exact absurd h3 (by decide)

/-- C1, amended: starting from a count in the non-negative LONG range, a
linearized history of the fast path's interlocked operations (Post
increments; a Wait decrement is a compare-and-swap that commits only when
the counter still equals the nonzero value it read) keeps the counter in
[0, 2147483648) — in particular never negative — provided no Post occurs
at LONG_MAX = 2147483647; Wait decrements alone can never drive it
negative, and without that overflow bound the invariant fails (the
counterexample above). -/
theorem c1_counter_nonneg_no_overflow (c0 : Int) (h0 : 0 ≤ c0)
    (h1 : c0 < 2147483648) (evs : List SemEvent)
    (hov : noOverflow c0 evs = true) :
    0 ≤ atomRun c0 evs ∧ atomRun c0 evs < 2147483648 := by
  induction evs generalizing c0 with
  | nil => exact ⟨h0, h1⟩
  | cons e rest ih =>
    have hov2 : postOk c0 e = true ∧ noOverflow (atomStep c0 e) rest = true := by
      simpa [noOverflow, Bool.and_eq_true] using hov
    have hrange : 0 ≤ atomStep c0 e ∧ atomStep c0 e < 2147483648 := by
      cases e with
      | post =>
        have hlt : c0 < 2147483647 := by
          have h4 := hov2.1
          simpa [postOk] using h4
        simp only [atomStep]
        rw [wrap32_eq_self (c0 + 1) (by omega) (by omega)]
        omega
      | casDec obs =>
        simp only [atomStep]
        split
        · rename_i hc
          rw [wrap32_eq_self (obs - 1) (by omega) (by omega)]
          omega
        · exact ⟨h0, h1⟩
    have hcons : atomRun c0 (e :: rest) = atomRun (atomStep c0 e) rest := rfl
    rw [hcons]
    exact ih (atomStep c0 e) hrange.1 hrange.2 hov2.2

/-- Witness for C1's amended statement at a concrete non-negative start
and overflow-free history. -/
theorem c1_witness :
    (0 : Int) ≤ 2 ∧ (2 : Int) < 2147483648 ∧
      noOverflow 2 [SemEvent.casDec 2, SemEvent.post, SemEvent.casDec 2,
        SemEvent.casDec 1, SemEvent.casDec 1] = true ∧
      0 ≤ atomRun 2 [SemEvent.casDec 2, SemEvent.post, SemEvent.casDec 2,
        SemEvent.casDec 1, SemEvent.casDec 1] ∧
      atomRun 2 [SemEvent.casDec 2, SemEvent.post, SemEvent.casDec 2,
        SemEvent.casDec 1, SemEvent.casDec 1] < 2147483648 :=
  ⟨by decide, by decide, by decide,
    (c1_counter_nonneg_no_overflow 2 (by decide) (by decide) _ (by decide)).1,
    (c1_counter_nonneg_no_overflow 2 (by decide) (by decide) _ (by decide)).2⟩

/-! ## Fallback: kernel semaphores (`_kern` functions) -/

/-- SDL_sem_kern: the fallback semaphore holds the HANDLE returned by
CreateSemaphore (modelled by whether it is a valid, non-NULL handle) and
the shadow LONG count. -/
structure SDL_sem_kern where
  idValid : Bool
  count : Int
deriving DecidableEq

/-- Outcome of SDL_CreateSemaphore_kern: the returned handle (NULL on any
failure), the (lInitialCount, lMaximumCount) arguments passed to
CreateSemaphore when it was called, and whether SDL_OutOfMemory or
SDL_SetError was reported. -/
structure KernCreateOut where
  result : Option SDL_sem_kern
  kernCall : Option (Nat × Nat)
  outOfMemory : Bool
  osError : Bool
deriving DecidableEq

/-- SDL_CreateSemaphore_kern: SDL_malloc; on success call
CreateSemaphore(NULL, initial_value, 32 * 1024, NULL) and set
sem->count = initial_value; if the kernel object was not created,
SDL_SetError, SDL_free the allocation and return NULL; if the allocation
failed, SDL_OutOfMemory and return NULL. `mallocOk` and `kernOk` are the
outcomes of the two fallible calls. -/
def SDL_CreateSemaphore_kern (mallocOk kernOk : Bool) (initial_value : Nat) :
    KernCreateOut :=
  if mallocOk then
    if kernOk then
      ⟨some ⟨true, asSigned32 initial_value⟩, some (initial_value, 32 * 1024),
        false, false⟩
    else
      ⟨none, some (initial_value, 32 * 1024), false, true⟩
  else
    ⟨none, none, true, false⟩

/-- Result of WaitForSingleObjectEx as distinguished by the switch in
SDL_WaitSemaphoreTimeoutNS_kern: WAIT_OBJECT_0, WAIT_TIMEOUT, or any
other value. -/
inductive KernWaitRes
  | object0
  | timedout
  | otherFailure
deriving DecidableEq

/-- SDL_WaitSemaphoreTimeoutNS_kern: NULL handle gives
SDL_InvalidParamError; otherwise dwMilliseconds is INFINITE for a negative
timeout and (DWORD)SDL_NS_TO_MS(timeoutNS) otherwise, and the thread
blocks in WaitForSingleObjectEx(sem->id, dwMilliseconds, FALSE).
WAIT_OBJECT_0 decrements the shadow count and returns 0; WAIT_TIMEOUT
returns SDL_MUTEX_TIMEDOUT; anything else is SDL_SetError. The result
carries the return value, the updated semaphore, and the dwMilliseconds
passed to the kernel wait (none when it was never called). -/
def SDL_WaitSemaphoreTimeoutNS_kern (sem : Option SDL_sem_kern)
    (timeoutNS : Int) (w : KernWaitRes) :
    Int × Option SDL_sem_kern × Option Nat :=
  match sem with
  | none => (errInvalidParam, none, none)
  | some s =>
      let dwMilliseconds : Nat :=
        if timeoutNS < 0 then INFINITE else nsToMs timeoutNS.toNat % 4294967296
      match w with
      | KernWaitRes.object0 =>
          (0, some ⟨s.idValid, s.count - 1⟩, some dwMilliseconds)
      | KernWaitRes.timedout =>
          (SDL_MUTEX_TIMEDOUT, some s, some dwMilliseconds)
      | KernWaitRes.otherFailure =>
          (errSetError, some s, some dwMilliseconds)

/-- SDL_GetSemaphoreValue_kern: on a NULL handle, records
SDL_InvalidParamError and returns 0; otherwise returns (Uint32)sem->count.
The Bool component records whether the invalid-parameter error was set. -/
def SDL_GetSemaphoreValue_kern : Option SDL_sem_kern → Nat × Bool
  | none => (0, true)
  | some sem => (asUint32 sem.count, false)

/-- Calls made by SDL_PostSemaphore_kern, in program order. -/
inductive KernPostEv
  | interlockedIncrement
  | releaseSemaphore
  | interlockedDecrementRestore
deriving DecidableEq

/-- SDL_PostSemaphore_kern: NULL handle gives SDL_InvalidParamError;
otherwise InterlockedIncrement(&sem->count) first, then
ReleaseSemaphore(sem->id, 1, NULL); if the release returns FALSE the
increment is undone with InterlockedDecrement and SDL_SetError is
returned, else 0. `releaseOk` is the outcome of ReleaseSemaphore; the
event list records the calls in program order. -/
def SDL_PostSemaphore_kern (sem : Option SDL_sem_kern) (releaseOk : Bool) :
    Int × Option SDL_sem_kern × List KernPostEv :=
  match sem with
  | none => (errInvalidParam, none, [])
  | some s =>
      if releaseOk then
        (0, some ⟨s.idValid, s.count + 1⟩,
          [KernPostEv.interlockedIncrement, KernPostEv.releaseSemaphore])
      else
        (errSetError, some s,
          [KernPostEv.interlockedIncrement, KernPostEv.releaseSemaphore,
            KernPostEv.interlockedDecrementRestore])

/-- C3: fallback Post on a non-null semaphore performs the shadow-counter
increment strictly before the kernel release (the event log always begins
with the increment followed by the release); exactly when the release
fails, a restoring decrement follows, the final count equals the pre-call
count and an OS failure is reported; on success the final count is one
greater and 0 is returned. -/
theorem c3_post_kern_rollback (s : SDL_sem_kern) (releaseOk : Bool) :
    (SDL_PostSemaphore_kern (some s) releaseOk).2.2.take 2 =
        [KernPostEv.interlockedIncrement, KernPostEv.releaseSemaphore] ∧
      (releaseOk = true →
        SDL_PostSemaphore_kern (some s) releaseOk =
          (0, some ⟨s.idValid, s.count + 1⟩,
            [KernPostEv.interlockedIncrement, KernPostEv.releaseSemaphore])) ∧
      (releaseOk = false →
        SDL_PostSemaphore_kern (some s) releaseOk =
          (errSetError, some s,
            [KernPostEv.interlockedIncrement, KernPostEv.releaseSemaphore,
              KernPostEv.interlockedDecrementRestore])) := by
  cases releaseOk <;> simp [SDL_PostSemaphore_kern]

/-- Witness for C3 at a concrete semaphore, in both release outcomes. -/
theorem c3_witness :
    ((SDL_PostSemaphore_kern (some ⟨true, 5⟩) false).2.2.take 2 =
        [KernPostEv.interlockedIncrement, KernPostEv.releaseSemaphore]) ∧
      SDL_PostSemaphore_kern (some ⟨true, 5⟩) false =
        (errSetError, some ⟨true, 5⟩,
          [KernPostEv.interlockedIncrement, KernPostEv.releaseSemaphore,
            KernPostEv.interlockedDecrementRestore]) ∧
      SDL_PostSemaphore_kern (some ⟨true, 5⟩) true =
        (0, some ⟨true, 6⟩,
          [KernPostEv.interlockedIncrement, KernPostEv.releaseSemaphore]) :=
  ⟨(c3_post_kern_rollback ⟨true, 5⟩ false).1,
    (c3_post_kern_rollback ⟨true, 5⟩ false).2.2 rfl,
    (c3_post_kern_rollback ⟨true, 5⟩ true).2.1 rfl⟩

/-- Round trip of the Uint32 initial value through the LONG count and back
through the (Uint32) cast of the get-value functions. -/
lemma asUint32_asSigned32 (v : Nat) (hv : v < 4294967296) :
    asUint32 (asSigned32 v) = v := by
  unfold asUint32 asSigned32
  split <;> omega

/-- C5: for every 32-bit initial value V for which Create succeeds,
GetValue called immediately on the result returns exactly V, in both the
fast-path and the fallback implementation. -/
theorem c5_create_getvalue_roundtrip (v : Nat) (hv : v < 4294967296) :
    (SDL_GetSemaphoreValue_atom (SDL_CreateSemaphore_atom true v)).1 = v ∧
      (SDL_GetSemaphoreValue_kern (SDL_CreateSemaphore_kern true true v).result).1 = v := by
  constructor
  · simp [SDL_CreateSemaphore_atom, SDL_GetSemaphoreValue_atom,
      asUint32_asSigned32 v hv]
  · simp [SDL_CreateSemaphore_kern, SDL_GetSemaphoreValue_kern,
      asUint32_asSigned32 v hv]

/-- Witness for C5 at the concrete initial value 7. -/
theorem c5_witness :
    7 < 4294967296 ∧
      (SDL_GetSemaphoreValue_atom (SDL_CreateSemaphore_atom true 7)).1 = 7 ∧
      (SDL_GetSemaphoreValue_kern (SDL_CreateSemaphore_kern true true 7).result).1 = 7 :=
  ⟨by decide, c5_create_getvalue_roundtrip 7 (by decide)⟩

/-- C7: fallback Wait on a non-null semaphore converts the nanosecond
timeout to the millisecond budget passed to the kernel wait (negative
gives INFINITE, zero gives 0 which is an immediate poll, positive gives
truncated milliseconds cast to DWORD); acquisition decrements the shadow
counter and returns 0, timeout returns SDL_MUTEX_TIMEDOUT leaving the
counter alone, and any other wait outcome reports an OS failure. -/
theorem c7_wait_kern_budget_outcomes (s : SDL_sem_kern) (t : Int) (w : KernWaitRes) :
    (SDL_WaitSemaphoreTimeoutNS_kern (some s) t w).2.2 =
        some (if t < 0 then INFINITE else nsToMs t.toNat % 4294967296) ∧
      (t = 0 → (SDL_WaitSemaphoreTimeoutNS_kern (some s) t w).2.2 = some 0) ∧
      (w = KernWaitRes.object0 →
        SDL_WaitSemaphoreTimeoutNS_kern (some s) t w =
          (0, some ⟨s.idValid, s.count - 1⟩,
            some (if t < 0 then INFINITE else nsToMs t.toNat % 4294967296))) ∧
      (w = KernWaitRes.timedout →
        SDL_WaitSemaphoreTimeoutNS_kern (some s) t w =
          (SDL_MUTEX_TIMEDOUT, some s,
            some (if t < 0 then INFINITE else nsToMs t.toNat % 4294967296))) ∧
      (w = KernWaitRes.otherFailure →
        SDL_WaitSemaphoreTimeoutNS_kern (some s) t w =
          (errSetError, some s,
            some (if t < 0 then INFINITE else nsToMs t.toNat % 4294967296))) := by
  refine ⟨?_, ?_, ?_, ?_, ?_⟩ <;>
    cases w <;>
      simp_all [SDL_WaitSemaphoreTimeoutNS_kern, nsToMs]

/-- Witness for C7 at a concrete semaphore, timeout and wait outcome. -/
theorem c7_witness :
    SDL_WaitSemaphoreTimeoutNS_kern (some ⟨true, 4⟩) 3000000 KernWaitRes.object0 =
      (0, some ⟨true, 3⟩,
        some (if (3000000 : Int) < 0 then INFINITE
          else nsToMs (3000000 : Int).toNat % 4294967296)) :=
  (c7_wait_kern_budget_outcomes ⟨true, 4⟩ 3000000 KernWaitRes.object0).2.2.1 rfl

/-- C8: fallback Create reports OutOfMemory and returns NULL when the
allocation fails (without touching the kernel); otherwise it calls
CreateSemaphore with the given initial count and the fixed 32768 maximum;
if that fails the allocation is freed, an OS failure is reported and NULL
is returned; on success the handle is valid and the shadow counter holds
the initial value. No returned handle ever lacks a valid kernel object. -/
theorem c8_create_kern_errors (v : Nat) :
    (∀ kernOk, SDL_CreateSemaphore_kern false kernOk v =
        ⟨none, none, true, false⟩) ∧
      SDL_CreateSemaphore_kern true false v =
        ⟨none, some (v, 32768), false, true⟩ ∧
      SDL_CreateSemaphore_kern true true v =
        ⟨some ⟨true, asSigned32 v⟩, some (v, 32768), false, false⟩ ∧
      (∀ mallocOk kernOk s,
        (SDL_CreateSemaphore_kern mallocOk kernOk v).result = some s →
          s.idValid = true) ∧
      (v < 2147483648 → asSigned32 v = v) := by
  refine ⟨?_, ?_, ?_, ?_, ?_⟩
  · intro kernOk
    simp [SDL_CreateSemaphore_kern]
  · simp [SDL_CreateSemaphore_kern]
  · simp [SDL_CreateSemaphore_kern]
  · intro mallocOk kernOk s hs
    cases mallocOk <;> cases kernOk <;> simp_all [SDL_CreateSemaphore_kern]
    simp [← hs]
  · intro hv
    simp [asSigned32, hv]

/-- Witness for C8 at the concrete initial value 9. -/
theorem c8_witness :
    SDL_CreateSemaphore_kern false true 9 = ⟨none, none, true, false⟩ ∧
      SDL_CreateSemaphore_kern true false 9 = ⟨none, some (9, 32768), false, true⟩ ∧
      (9 : Nat) < 2147483648 ∧ asSigned32 9 = 9 :=
  ⟨(c8_create_kern_errors 9).1 true, (c8_create_kern_errors 9).2.1,
    by decide, (c8_create_kern_errors 9).2.2.2.2 (by decide)⟩

/-- C9: fast-path Post returns SDL_InvalidParamError on a NULL handle; on
any non-null handle it increments the counter by exactly one, the wake of
one waiter comes strictly after the increment in the event log, and the
return value is always 0 — there is no other outcome. -/
theorem c9_post_atom_always_ok (s : SDL_sem_atom) :
    SDL_PostSemaphore_atom none = (errInvalidParam, none, []) ∧
      SDL_PostSemaphore_atom (some s) =
        (0, some ⟨s.count + 1⟩,
          [AtomPostEv.interlockedIncrement, AtomPostEv.wakeByAddressSingle]) := by
  exact ⟨rfl, rfl⟩

/-- C10: GetValue on a NULL handle records an invalid-parameter error but
returns 0 in both implementations — the same integer a valid semaphore
with an empty count returns, so the two cases cannot be told apart from
the returned value alone. -/
theorem c10_getvalue_null_returns_zero :
    SDL_GetSemaphoreValue_atom none = (0, true) ∧
      SDL_GetSemaphoreValue_kern none = (0, true) ∧
      SDL_GetSemaphoreValue_atom (some ⟨0⟩) = (0, false) ∧
      SDL_GetSemaphoreValue_kern (some ⟨true, 0⟩) = (0, false) ∧
      (SDL_GetSemaphoreValue_atom none).1 =
        (SDL_GetSemaphoreValue_atom (some ⟨0⟩)).1 ∧
      (SDL_GetSemaphoreValue_kern none).1 =
        (SDL_GetSemaphoreValue_kern (some ⟨true, 0⟩)).1 := by
  refine ⟨rfl, rfl, ?_, ?_, ?_, ?_⟩ <;> simp [SDL_GetSemaphoreValue_atom,
    SDL_GetSemaphoreValue_kern, asUint32]

/-! ### Fast-path wait: SDL_WaitSemaphoreTimeoutNS_atom

The wait loops interact with a mutable shared counter, the clock and the
WaitOnAddress facility; these interactions are modelled as environment
streams indexed by how many such calls the loop has made so far, and the
loops take a fuel bound, returning `none` if it runs out. Alongside the
return value, the embedding records one `BlockCall` entry per
pWaitOnAddress call, in order, so that theorems can speak about when and
with what timeout the thread blocked. -/

/-- Outcome of one pWaitOnAddress call as distinguished by the source:
TRUE (woke, possibly spuriously), FALSE with GetLastError() =
ERROR_TIMEOUT, or FALSE with any other last error. -/
inductive WOARes
  | woke
  | timedOut
  | failed
deriving DecidableEq

/-- Environment of one SDL_WaitSemaphoreTimeoutNS_atom call: the values the
successive reads of sem->count observe, the successive SDL_GetTicksNS()
results, the successive pWaitOnAddress outcomes, and whether each
successive InterlockedCompareExchange still finds the value that was read
(compare-and-swap success). -/
structure AtomEnv where
  reads : Nat → Int
  ticks : Nat → Nat
  waits : Nat → WOARes
  casOk : Nat → Bool

/-- Record of one pWaitOnAddress call: the SDL_GetTicksNS value obtained
just before it in the timed path (none in the infinite path) and the
dwMilliseconds timeout handed to the facility. -/
structure BlockCall where
  nowAt : Option Nat
  eff : Nat
deriving DecidableEq

/-- The timeoutNS < 0 loop of SDL_WaitSemaphoreTimeoutNS_atom: read the
count; while it is zero, block with INFINITE timeout, any FALSE from
pWaitOnAddress being SDL_SetError; once nonzero, attempt the interlocked
compare-and-swap decrement and start over if it lost the race. -/
def waitInfLoop (env : AtomEnv) :
    Nat → Nat → Nat → Nat → Option (Int × List BlockCall)
  | 0, _, _, _ => none
  | fuel + 1, ri, wi, ci =>
    if env.reads ri = 0 then
      match env.waits wi with
      | WOARes.woke =>
          match waitInfLoop env fuel (ri + 1) (wi + 1) ci with
          | none => none
          | some (r, l) => some (r, ⟨none, INFINITE⟩ :: l)
      | _ => some (errSetError, [⟨none, INFINITE⟩])
    else
      if env.casOk ci then some (0, [])
      else waitInfLoop env fuel (ri + 1) wi (ci + 1)

/-- The timeoutNS > 0 loop of SDL_WaitSemaphoreTimeoutNS_atom, run against
the fixed absolute deadline computed before it: read the count; while it
is zero, re-read the clock, return SDL_MUTEX_TIMEDOUT at once if the
deadline is not in the future, otherwise block with
timeout_eff = (DWORD)SDL_NS_TO_MS(deadline - now); a FALSE from
pWaitOnAddress is SDL_MUTEX_TIMEDOUT when the last error is ERROR_TIMEOUT
and SDL_SetError otherwise; once the count is nonzero, attempt the
interlocked compare-and-swap decrement and start over if it lost the
race. -/
def waitPosLoop (env : AtomEnv) (deadline : Nat) :
    Nat → Nat → Nat → Nat → Nat → Option (Int × List BlockCall)
  | 0, _, _, _, _ => none
  | fuel + 1, ri, ti, wi, ci =>
    if env.reads ri = 0 then
      if deadline > env.ticks ti then
        match env.waits wi with
        | WOARes.woke =>
            match waitPosLoop env deadline fuel (ri + 1) (ti + 1) (wi + 1) ci with
            | none => none
            | some (r, l) =>
                some (r, ⟨some (env.ticks ti),
                  nsToMs (deadline - env.ticks ti) % 4294967296⟩ :: l)
        | WOARes.timedOut =>
            some (SDL_MUTEX_TIMEDOUT,
              [⟨some (env.ticks ti), nsToMs (deadline - env.ticks ti) % 4294967296⟩])
        | WOARes.failed =>
            some (errSetError,
              [⟨some (env.ticks ti), nsToMs (deadline - env.ticks ti) % 4294967296⟩])
      else some (SDL_MUTEX_TIMEDOUT, [])
    else
      if env.casOk ci then some (0, [])
      else waitPosLoop env deadline fuel (ri + 1) ti wi (ci + 1)

/-- SDL_WaitSemaphoreTimeoutNS_atom: NULL handle gives
SDL_InvalidParamError. timeoutNS = 0 reads the count once: zero is
SDL_MUTEX_TIMEDOUT, otherwise one compare-and-swap decides between 0 and
SDL_MUTEX_TIMEDOUT, with no blocking. timeoutNS < 0 runs the infinite
loop. timeoutNS > 0 reads SDL_GetTicksNS once, computes the absolute
deadline now + timeoutNS, and runs the deadline loop. -/
def SDL_WaitSemaphoreTimeoutNS_atom (semNull : Bool) (env : AtomEnv)
    (timeoutNS : Int) (fuel : Nat) : Option (Int × List BlockCall) :=
  if semNull then some (errInvalidParam, [])
  else if timeoutNS = 0 then
    if env.reads 0 = 0 then some (SDL_MUTEX_TIMEDOUT, [])
    else if env.casOk 0 then some (0, [])
    else some (SDL_MUTEX_TIMEDOUT, [])
  else if timeoutNS < 0 then
    waitInfLoop env fuel 0 0 0
  else
    waitPosLoop env (env.ticks 0 + timeoutNS.toNat) fuel 0 1 0 0

/-- Every pWaitOnAddress call issued by the deadline loop happens at a
clock value strictly before the deadline, with the effective timeout
recomputed from the remaining budget deadline - now at that moment. -/
lemma waitPosLoop_blocks_good (env : AtomEnv) (dl : Nat) :
    ∀ fuel ri ti wi ci r l, waitPosLoop env dl fuel ri ti wi ci = some (r, l) →
      ∀ b ∈ l, ∃ n, b.nowAt = some n ∧ n < dl ∧
        b.eff = nsToMs (dl - n) % 4294967296 := by
  intro fuel
  induction fuel with
  | zero =>
    intro ri ti wi ci r l h
    simp [waitPosLoop] at h
  | succ f ih =>
    intro ri ti wi ci r l h b hb
    simp only [waitPosLoop] at h
    by_cases h0 : env.reads ri = 0
    · rw [if_pos h0] at h
      by_cases hdl : dl > env.ticks ti
      · rw [if_pos hdl] at h
        cases hw : env.waits wi with
        | woke =>
          rw [hw] at h
          cases hrec : waitPosLoop env dl f (ri + 1) (ti + 1) (wi + 1) ci with
          | none => rw [hrec] at h; exact absurd h (by simp)
          | some rl =>
            obtain ⟨r0, l0⟩ := rl
            rw [hrec] at h
            simp only [Option.some.injEq, Prod.mk.injEq] at h
            obtain ⟨hr, hl⟩ := h
            rw [← hl] at hb
            rcases List.mem_cons.mp hb with hbhd | hbtl
            · exact ⟨env.ticks ti, by simp [hbhd], hdl, by simp [hbhd]⟩
            · exact ih (ri + 1) (ti + 1) (wi + 1) ci r0 l0 hrec b hbtl
        | timedOut =>
          rw [hw] at h
          simp only [Option.some.injEq, Prod.mk.injEq] at h
          rw [← h.2] at hb
          rcases List.mem_singleton.mp hb with hbhd
          exact ⟨env.ticks ti, by simp [hbhd], hdl, by simp [hbhd]⟩
        | failed =>
          rw [hw] at h
          simp only [Option.some.injEq, Prod.mk.injEq] at h
          rw [← h.2] at hb
          rcases List.mem_singleton.mp hb with hbhd
          exact ⟨env.ticks ti, by simp [hbhd], hdl, by simp [hbhd]⟩
      · rw [if_neg hdl] at h
        simp only [Option.some.injEq, Prod.mk.injEq] at h
        rw [← h.2] at hb
        simp at hb
    · rw [if_neg h0] at h
      by_cases hcas : env.casOk ci
      · rw [if_pos hcas] at h
        simp only [Option.some.injEq, Prod.mk.injEq] at h
        rw [← h.2] at hb
        simp at hb
      · rw [if_neg hcas] at h
        exact ih (ri + 1) ti wi (ci + 1) r l h b hb

/-- C2: for a strictly positive timeout the fast-path wait computes the
absolute deadline ticks + timeoutNS exactly once, before the retry loop,
and then (i) whenever the count is read as zero and the deadline is not in
the future, it returns SDL_MUTEX_TIMEDOUT at once with no further block,
(ii) a pWaitOnAddress failure with ERROR_TIMEOUT yields
SDL_MUTEX_TIMEDOUT, (iii) any other pWaitOnAddress failure yields the
generic negative SDL_SetError result, and (iv) every block the loop ever
issues happens strictly before the deadline with its timeout recomputed
from the remaining budget deadline - now. -/
theorem c2_pos_timeout_deadline (env : AtomEnv) (t : Int) (ht : 0 < t) :
    (∀ fuel, SDL_WaitSemaphoreTimeoutNS_atom false env t fuel =
        waitPosLoop env (env.ticks 0 + t.toNat) fuel 0 1 0 0) ∧
      (∀ dl f ri ti wi ci, env.reads ri = 0 → dl ≤ env.ticks ti →
        waitPosLoop env dl (f + 1) ri ti wi ci = some (SDL_MUTEX_TIMEDOUT, [])) ∧
      (∀ dl f ri ti wi ci, env.reads ri = 0 → env.ticks ti < dl →
        env.waits wi = WOARes.timedOut →
        waitPosLoop env dl (f + 1) ri ti wi ci =
          some (SDL_MUTEX_TIMEDOUT,
            [⟨some (env.ticks ti), nsToMs (dl - env.ticks ti) % 4294967296⟩])) ∧
      (∀ dl f ri ti wi ci, env.reads ri = 0 → env.ticks ti < dl →
        env.waits wi = WOARes.failed →
        waitPosLoop env dl (f + 1) ri ti wi ci =
          some (errSetError,
            [⟨some (env.ticks ti), nsToMs (dl - env.ticks ti) % 4294967296⟩])) ∧
      (∀ dl fuel ri ti wi ci r l,
        waitPosLoop env dl fuel ri ti wi ci = some (r, l) →
        ∀ b ∈ l, ∃ n, b.nowAt = some n ∧ n < dl ∧
          b.eff = nsToMs (dl - n) % 4294967296) := by
  have h1 : ¬t = 0 := ht.ne'
  have h2 : ¬t < 0 := not_lt.mpr ht.le
  refine ⟨?_, ?_, ?_, ?_, ?_⟩
  · intro fuel
    simp [SDL_WaitSemaphoreTimeoutNS_atom, h1, h2]
  · intro dl f ri ti wi ci hr hd
    simp only [waitPosLoop]
    rw [if_pos hr, if_neg (by omega : ¬dl > env.ticks ti)]
  · intro dl f ri ti wi ci hr hd hw
    simp only [waitPosLoop]
    rw [if_pos hr, if_pos (by omega : dl > env.ticks ti), hw]
  · intro dl f ri ti wi ci hr hd hw
    simp only [waitPosLoop]
    rw [if_pos hr, if_pos (by omega : dl > env.ticks ti), hw]
  · intro dl fuel
    exact waitPosLoop_blocks_good env dl fuel

/-- Concrete environment used by the C2 witness: the count always reads
zero, the clock reads 10, 20, 30, ... and the wait facility reports an
ERROR_TIMEOUT failure. -/
def envC2 : AtomEnv where
  reads := fun _ => 0
  ticks := fun i => 10 * i + 10
  waits := fun _ => WOARes.timedOut
  casOk := fun _ => true

/-- Witness for C2 on the concrete environment envC2 with timeout 5. -/
theorem c2_witness :
    (0 : Int) < 5 ∧
      SDL_WaitSemaphoreTimeoutNS_atom false envC2 5 2 =
        waitPosLoop envC2 (envC2.ticks 0 + (5 : Int).toNat) 2 0 1 0 0 ∧
      waitPosLoop envC2 5 1 0 0 0 0 = some (SDL_MUTEX_TIMEDOUT, []) ∧
      waitPosLoop envC2 100 1 0 0 0 0 =
        some (SDL_MUTEX_TIMEDOUT,
          [⟨some (envC2.ticks 0), nsToMs (100 - envC2.ticks 0) % 4294967296⟩]) :=
  ⟨by decide,
    (c2_pos_timeout_deadline envC2 5 (by decide)).1 2,
    (c2_pos_timeout_deadline envC2 5 (by decide)).2.1 5 0 0 0 0 0 rfl (by decide),
    (c2_pos_timeout_deadline envC2 5 (by decide)).2.2.1 100 0 0 0 0 0 rfl
      (by decide) rfl⟩

/-- C6: with timeoutNS = 0 the fast-path wait never blocks: the block log
is empty in every case (the address-wait facility is never invoked), the
single count read decides immediate SDL_MUTEX_TIMEDOUT when zero, and
otherwise a single compare-and-swap decides between 0 on success and
SDL_MUTEX_TIMEDOUT on a lost race. -/
theorem c6_zero_timeout_never_blocks (env : AtomEnv) (fuel : Nat) :
    (env.reads 0 = 0 →
      SDL_WaitSemaphoreTimeoutNS_atom false env 0 fuel =
        some (SDL_MUTEX_TIMEDOUT, [])) ∧
      (env.reads 0 ≠ 0 → env.casOk 0 = true →
        SDL_WaitSemaphoreTimeoutNS_atom false env 0 fuel = some (0, [])) ∧
      (env.reads 0 ≠ 0 → env.casOk 0 = false →
        SDL_WaitSemaphoreTimeoutNS_atom false env 0 fuel =
          some (SDL_MUTEX_TIMEDOUT, [])) := by
  refine ⟨?_, ?_, ?_⟩ <;> intros <;>
    simp_all [SDL_WaitSemaphoreTimeoutNS_atom]

/-- Concrete environment used by the C6 witness: the count reads 1 and the
compare-and-swap loses its race. -/
def envC6 : AtomEnv where
  reads := fun _ => 1
  ticks := fun _ => 0
  waits := fun _ => WOARes.woke
  casOk := fun _ => false

/-- Witness for C6: a nonzero count with a lost compare-and-swap race
yields SDL_MUTEX_TIMEDOUT with no block calls. -/
theorem c6_witness :
    SDL_WaitSemaphoreTimeoutNS_atom false envC6 0 3 =
      some (SDL_MUTEX_TIMEDOUT, []) :=
  (c6_zero_timeout_never_blocks envC6 3).2.2 (by decide) rfl

/-! ## Runtime selection: SDL_CreateSemaphore and SDL_sem_impl_active

SDL_sem_impl_active is a plain static struct of five function pointers,
zero-initialized. SDL_CreateSemaphore tests SDL_sem_impl_active.Create
against NULL with an ordinary load and, when NULL, fills the struct with
SDL_copyp — an ordinary struct copy, i.e. a sequence of plain stores with
no atomic read-modify-write and no barrier. The model below makes those
stores explicit so that the visibility of intermediate states can be
examined. -/

/-- The two implementation tables the copy can come from. -/
inductive SemImpl
  | atom
  | kern
deriving DecidableEq

/-- The process-wide SDL_sem_impl_active table: five function pointers,
all NULL (the { 0 } initializer) until installed. Each field records which
implementation's function it points to, none standing for NULL. -/
structure SemTable where
  Create : Option SemImpl
  Destroy : Option SemImpl
  WaitTimeoutNS : Option SemImpl
  Value : Option SemImpl
  Post : Option SemImpl
deriving DecidableEq

/-- The zero-initialized SDL_sem_impl_active. -/
def emptyTable : SemTable := ⟨none, none, none, none, none⟩

/-- The fully installed table pointing at one implementation. -/
def fullTable (impl : SemImpl) : SemTable :=
  ⟨some impl, some impl, some impl, some impl, some impl⟩

/-- One plain store into a field of SDL_sem_impl_active, as performed by
the SDL_copyp struct copy. -/
inductive RegWrite
  | wCreate
  | wDestroy
  | wWait
  | wValue
  | wPost
deriving DecidableEq

/-- Effect of one plain field store. -/
def regStep (impl : SemImpl) (s : SemTable) : RegWrite → SemTable
  | RegWrite.wCreate => { s with Create := some impl }
  | RegWrite.wDestroy => { s with Destroy := some impl }
  | RegWrite.wWait => { s with WaitTimeoutNS := some impl }
  | RegWrite.wValue => { s with Value := some impl }
  | RegWrite.wPost => { s with Post := some impl }

/-- SDL_copyp(&SDL_sem_impl_active, impl) as the sequence of its five
field stores; nothing in the source orders or fuses them atomically. -/
def copyOps : List RegWrite :=
  [RegWrite.wCreate, RegWrite.wDestroy, RegWrite.wWait, RegWrite.wValue,
    RegWrite.wPost]

/-- Table state after a sequence of plain field stores. -/
def runWrites (impl : SemImpl) (s : SemTable) (ops : List RegWrite) : SemTable :=
  ops.foldl (regStep impl) s

/-- Implementation chosen by SDL_CreateSemaphore when it finds the table
uninstalled: the kernel fallback by default, the atomic one when the
force-kernel hint is not set, the api-ms-win-core-synch-l1-2-0.dll module
handle is obtained, and both WaitOnAddress and WakeByAddressSingle
resolve. -/
def selectImpl (forceKernelHint found120 hasWoA hasWake : Bool) : SemImpl :=
  if !forceKernelHint && found120 && hasWoA && hasWake then SemImpl.atom
  else SemImpl.kern

/-- The stores SDL_CreateSemaphore performs on SDL_sem_impl_active: none
when the plain load of the Create field is already non-NULL, otherwise the
five stores of the SDL_copyp copy. -/
def installWrites (s : SemTable) : List RegWrite :=
  if s.Create = none then copyOps else []

/-- A table state is partially visible when some of its function pointers
are installed and some are still NULL — a thread dispatching through such
a table would call through a NULL pointer. -/
def mixedVisible (s : SemTable) : Bool :=
  ([s.Create.isSome, s.Destroy.isSome, s.WaitTimeoutNS.isSome,
      s.Value.isSome, s.Post.isSome].any (fun b => b)) &&
    ([s.Create.isSome, s.Destroy.isSome, s.WaitTimeoutNS.isSome,
      s.Value.isSome, s.Post.isSome].any (fun b => !b))

/-- C4, counterexample: the claim that the install is published atomically,
the table never being partially visible, is false for the plain SDL_copyp
store sequence — after the first of its five stores (implementation atom,
prefix of length 1) the table has Create installed and the other four
pointers still NULL. -/
theorem c4_atomic_publish_counterexample :
    ¬ (∀ (impl : SemImpl) (k : Nat),
        mixedVisible (runWrites impl emptyTable (copyOps.take k)) = false) :=
  fun hclaim => absurd (hclaim SemImpl.atom 1) (by decide)

/-- C4, amended: the full SDL_copyp sequence installs the complete chosen
table, and once the Create field is non-NULL every later
SDL_CreateSemaphore call performs no store at all, so the fully installed
table never changes for the remainder of the process; but the install is
a plain check-then-copy of five separate fields, and between its first
store and its last the table is partially visible (after the one-store
prefix, mixedVisible holds), not an atomically published unit. -/
theorem c4_install_once_unsynchronized (impl : SemImpl) (s : SemTable) :
    runWrites impl emptyTable copyOps = fullTable impl ∧
      (s.Create ≠ none → installWrites s = []) ∧
      installWrites (fullTable impl) = [] ∧
      runWrites impl (fullTable impl) (installWrites (fullTable impl)) =
        fullTable impl ∧
      mixedVisible emptyTable = false ∧
      mixedVisible (fullTable impl) = false ∧
      mixedVisible (runWrites impl emptyTable (copyOps.take 1)) = true := by
  refine ⟨?_, ?_, ?_, ?_, ?_, ?_, ?_⟩
  · cases impl <;> decide
  · intro h
    simp only [installWrites, if_neg h]
  · cases impl <;> decide
  · cases impl <;> decide
  · decide
  · cases impl <;> decide
  · cases impl <;> decide

/-- Witness for C4's amended statement at the atom implementation and an
already-installed table. -/
theorem c4_witness :
    runWrites SemImpl.atom emptyTable copyOps = fullTable SemImpl.atom ∧
      installWrites (fullTable SemImpl.atom) = [] ∧
      mixedVisible (runWrites SemImpl.atom emptyTable (copyOps.take 1)) = true :=
  ⟨(c4_install_once_unsynchronized SemImpl.atom (fullTable SemImpl.atom)).1,
    (c4_install_once_unsynchronized SemImpl.atom (fullTable SemImpl.atom)).2.1
      (by decide),
    (c4_install_once_unsynchronized SemImpl.atom
      (fullTable SemImpl.atom)).2.2.2.2.2.2⟩

end SDLSem
